import Mathlib

/-!
Shallow embedding of the figma_mcp repository (plugin/src/code.ts and the
plugin UI page) in Lean 4, used to verify the natural-language specification
of the repository against the source.

Conventions of the embedding:
* JavaScript objects become Lean structures; a property that a node may or
  may not expose (`'fills' in node`) becomes an `Option` field, with `none`
  meaning the property is absent.  Assigning `undefined` to a key of a
  plain object is identified with the key being absent, which is what the
  JSON serialization boundary (postMessage + JSON.stringify on the
  websocket leg) produces.
* JavaScript numbers that the code only moves around (coordinates, scale,
  stroke weight, color channels) are modelled as `Rat`; no float rounding
  is exercised by any code path modelled here.
* `throw` inside a handler becomes `Except.error`; the `try/catch` of
  `figma.ui.onmessage` becomes a `match` on the `Except`.
* The Figma host API (`figma.*`) is modelled as an explicit `FigmaState`
  threaded through the dispatcher; host calls whose only relevant effect is
  that they happened (`exportAsync`, `scrollAndZoomIntoView`) are recorded
  in a call log.
-/

/-- RGB color object `{r, g, b}` (plugin API `RGB`). -/
structure RGB where
  r : Rat
  g : Rat
  b : Rat
  deriving DecidableEq, Repr

/-- A paint as the plugin code observes it: the code only ever inspects
`paint.type` (a string such as `"SOLID"`, `"GRADIENT_LINEAR"`, ...) and,
for solid paints, carries a `color`.  Other payload (gradient stops, image
hashes) is never read by code.ts, so it is abstracted into `data`. -/
structure Paint where
  type : String
  color : Option RGB := none
  data : String := ""
  deriving DecidableEq, Repr

/-- A `value` parameter as the handlers observe it: either a paint/effect
shaped object (anything carrying a `type` string — `{type:'SOLID',color}`,
a gradient, an effect object) or a plain number (stroke weight).  A number
has no `type` property; an object is always truthy while the number `0` is
falsy — both facts matter to the handlers. -/
inductive ParamValue where
  | paint (p : Paint)
  | num (n : Rat)
  deriving DecidableEq, Repr

/-- JavaScript truthiness of a `value` parameter: objects are truthy, a
number is truthy unless it is `0` (`NaN` does not arise from `Rat`). -/
def ParamValue.truthy : ParamValue → Bool
  | .paint _ => true
  | .num n => n ≠ 0

/-- JavaScript truthiness of an optional string parameter: absent
(`undefined`) and the empty string are falsy. -/
def strTruthy : Option String → Bool
  | some s => s ≠ ""
  | none => false

/-- `a || b` on an optional number parameter: `undefined` and `0` are
falsy, so both select the default. -/
def jsOrNum (v : Option Rat) (d : Rat) : Rat :=
  match v with
  | some x => if x = 0 then d else x
  | none => d

/-- `a || b` on an optional string parameter: `undefined` and `""` are
falsy, so both select the default. -/
def jsOrStr (v : Option String) (d : String) : String :=
  match v with
  | some s => if s = "" then d else s
  | none => d

/-- `s.startsWith(pre)` on JavaScript strings, computed on the character
sequences (so that it evaluates by kernel reduction). -/
def strStartsWith (s pre : String) : Bool :=
  pre.data.isPrefixOf s.data

/-- `s.toUpperCase()` on JavaScript strings, computed on the character
sequence (so that it evaluates by kernel reduction). -/
def strToUpper (s : String) : String :=
  ⟨s.data.map Char.toUpper⟩

/-- A local paint style (`PaintStyle`): `id`, `name`, `description`,
`paints`. -/
structure PaintStyle where
  id : String
  name : String
  description : String := ""
  paints : List Paint
  deriving DecidableEq, Repr

/-- `extractPaintStyleInfo` returns `{id, name, description, paints}`. -/
structure PaintStyleInfo where
  id : String
  name : String
  description : String
  paints : List Paint
  deriving DecidableEq, Repr

/-- Translation of `extractPaintStyleInfo` (code.ts lines 66-73). -/
def extractPaintStyleInfo (style : PaintStyle) : PaintStyleInfo :=
  { id := style.id
    name := style.name
    description := style.description
    paints := style.paints }

/-- Constraints object read whole by the projector (`node.constraints`). -/
structure Constraints where
  horizontal : String
  vertical : String
  deriving DecidableEq, Repr

/-- The auto-layout properties read by the `get-selection-details` handler
when `'layoutMode' in node`.  In the host API a node exposing `layoutMode`
exposes all of these, so they are bundled. -/
structure LayoutProps where
  layoutMode : String
  primaryAxisAlignItems : String
  counterAxisAlignItems : String
  paddingLeft : Rat
  paddingRight : Rat
  paddingTop : Rat
  paddingBottom : Rat
  itemSpacing : Rat
  deriving DecidableEq, Repr

/-- The flat (non-container) part of a scene node, holding every property
code.ts ever reads off a node apart from `children`/`constraints`/layout.
`Option` fields model capabilities the node may lack (`'x' in node` etc.).
`effects` stores whatever `setEffect` pushed, as in the source, where the
pushed value is not validated beyond truthiness. -/
structure NodeCore where
  id : String
  type : String
  name : String
  visible : Option Bool := none
  locked : Option Bool := none
  width : Option Rat := none
  height : Option Rat := none
  x : Option Rat := none
  y : Option Rat := none
  fills : Option (List Paint) := none
  strokes : Option (List Paint) := none
  strokeWeight : Option Rat := none
  effects : Option (List ParamValue) := none
  characters : Option String := none
  deriving DecidableEq, Repr

/-- A scene node.  code.ts reads children only one level deep
(`node.children.map(child => getNodeProperties(child))` reads only flat
properties of each child), so children are `NodeCore`s. -/
structure Node extends NodeCore where
  children : Option (List NodeCore) := none
  constraints : Option Constraints := none
  layout : Option LayoutProps := none
  deriving DecidableEq, Repr

/-- The projection built by `getNodeProperties` (code.ts lines 10-43): a
plain object whose optional keys are present only when assigned. -/
structure NodeProjection where
  id : String
  type : String
  name : String
  visible : Option Bool := none
  locked : Option Bool := none
  width : Option Rat := none
  height : Option Rat := none
  x : Option Rat := none
  y : Option Rat := none
  fills : Option (List Paint) := none
  strokes : Option (List Paint) := none
  strokeWeight : Option Rat := none
  deriving DecidableEq, Repr

/-- Translation of `getNodeProperties` (code.ts lines 10-43) on the flat
part of a node.  `visible`/`locked` copy the ternary
`'visible' in node ? node.visible : undefined`; the geometry pair is gated
on both `width` and `height` being present, position on both `x` and `y`;
`strokes` presence also gates the `strokeWeight` key. -/
def getNodePropertiesCore (node : NodeCore) : NodeProjection :=
  let base : NodeProjection :=
    { id := node.id
      type := node.type
      name := node.name
      visible := node.visible
      locked := node.locked }
  let base := if node.width.isSome ∧ node.height.isSome then
      { base with width := node.width, height := node.height } else base
  let base := if node.x.isSome ∧ node.y.isSome then
      { base with x := node.x, y := node.y } else base
  let base := match node.fills with
    | some f => { base with fills := some f }
    | none => base
  let base := match node.strokes with
    | some s => { base with strokes := some s, strokeWeight := node.strokeWeight }
    | none => base
  base

/-- `getNodeProperties` on a full node (reads only the flat part). -/
def getNodeProperties (node : Node) : NodeProjection :=
  getNodePropertiesCore node.toNodeCore

/-- The detailed projection built per node by the `get-selection-details`
handler (code.ts lines 228-256): the flat projection plus `children`
(each child projected with the non-recursive rule), `constraints` and
`layout`, each gated on the node exposing the capability. -/
structure DetailedProjection extends NodeProjection where
  children : Option (List NodeProjection) := none
  constraints : Option Constraints := none
  layout : Option LayoutProps := none
  deriving DecidableEq, Repr

/-- Translation of the body of the `get-selection-details` map
(code.ts lines 228-256). -/
def getDetailedNodeProperties (node : Node) : DetailedProjection :=
  let properties : DetailedProjection :=
    { toNodeProjection := getNodeProperties node }
  let properties := match node.children with
    | some cs => { properties with
        children := some (cs.map getNodePropertiesCore) }
    | none => properties
  let properties := match node.constraints with
    | some c => { properties with constraints := some c }
    | none => properties
  let properties := match node.layout with
    | some l => { properties with layout := some l }
    | none => properties
  properties

/-- Rewrite the first list entry satisfying `p` by `f`, leaving the rest as
is: this is how mutating the object returned by `Array.prototype.find`
shows up on the array it came from. -/
def updateFirst (p : α → Bool) (f : α → α) : List α → List α
  | [] => []
  | a :: as => if p a then f a :: as else a :: updateFirst p f as

/-- Translation of `createOrUpdateColorStyle` (code.ts lines 46-63).
`figma.getLocalPaintStyles()` is the `styles` list; finding an existing
style by name and assigning its `paints` mutates that object in place
(modelled as rewriting the first list entry whose name matches); otherwise
`figma.createPaintStyle()` appends a fresh style whose host-assigned id is
`freshId`.  Returns the updated local style list and the returned style. -/
def createOrUpdateColorStyle (styles : List PaintStyle) (freshId : String)
    (name : String) (color : RGB) : List PaintStyle × PaintStyle :=
  match styles.find? (fun style => style.name = name) with
  | some existingStyle =>
      let updated : PaintStyle :=
        { existingStyle with paints := [{ type := "SOLID", color := some color }] }
      (updateFirst (fun style => style.name = name)
         (fun style => { style with paints := [{ type := "SOLID", color := some color }] })
         styles,
       updated)
  | none =>
      let newStyle : PaintStyle :=
        { id := freshId
          name := name
          paints := [{ type := "SOLID", color := some color }] }
      (styles ++ [newStyle], newStyle)

/-- Translation of `setFillColor` (code.ts lines 76-89).
`Array.isArray(node.fills) ? Array.from(node.fills) : []` coerces an
absent fill list to `[]`; the solid paint replaces the first entry when
that entry is `SOLID`, else is unshifted to the front; the node's `fills`
is then assigned.  `color` is `Option` because the dispatcher passes
`value.color` through unchecked, which may be absent at runtime. -/
def setFillColor (node : Node) (color : Option RGB) : Node :=
  let paints := node.fills.getD []
  let solidPaint : Paint := { type := "SOLID", color := color }
  let paints := match paints with
    | p :: rest => if p.type = "SOLID" then solidPaint :: rest else solidPaint :: p :: rest
    | [] => [solidPaint]
  { node with fills := some paints }

/-- Translation of `setStrokeColor` (code.ts lines 92-105), identical to
`setFillColor` but over `strokes`. -/
def setStrokeColor (node : Node) (color : Option RGB) : Node :=
  let paints := node.strokes.getD []
  let solidPaint : Paint := { type := "SOLID", color := color }
  let paints := match paints with
    | p :: rest => if p.type = "SOLID" then solidPaint :: rest else solidPaint :: p :: rest
    | [] => [solidPaint]
  { node with strokes := some paints }

/-- Translation of `setFillGradient` (code.ts lines 110-121): the gradient
paint replaces the first entry when that entry's `type` starts with
`"GRADIENT"`, else is unshifted to the front. -/
def setFillGradient (node : Node) (gradient : Paint) : Node :=
  let paints := node.fills.getD []
  let paints := match paints with
    | p :: rest =>
        if strStartsWith p.type "GRADIENT" then gradient :: rest
        else gradient :: p :: rest
    | [] => [gradient]
  { node with fills := some paints }

/-- Translation of `setStrokeGradient` (code.ts lines 124-135). -/
def setStrokeGradient (node : Node) (gradient : Paint) : Node :=
  let paints := node.strokes.getD []
  let paints := match paints with
    | p :: rest =>
        if strStartsWith p.type "GRADIENT" then gradient :: rest
        else gradient :: p :: rest
    | [] => [gradient]
  { node with strokes := some paints }

/-- Translation of `setStrokeWeight` (code.ts lines 138-140). -/
def setStrokeWeight (node : Node) (strokeWeight : Rat) : Node :=
  { node with strokeWeight := some strokeWeight }

/-- Translation of `setEffect` (code.ts lines 143-147): pushes the value
onto the (possibly absent, coerced-to-empty) effect list.  The source does
not validate the shape of the pushed value. -/
def setEffect (node : Node) (effect : ParamValue) : Node :=
  let effects := node.effects.getD []
  { node with effects := some (effects ++ [effect]) }

/-- Translation of `applyFillColorStyle` (code.ts lines 150-160).
`figma.getStyleById` is a lookup in the document's style list; a missing
style or a style with no paints throws; otherwise the node's entire fill
list is assigned the style's paint list. -/
def applyFillColorStyle (styles : List PaintStyle) (node : Node)
    (styleId : String) : Except String Node :=
  match styles.find? (fun style => style.id = styleId) with
  | none => .error ("Color style with ID " ++ styleId ++ " not found.")
  | some style =>
      if style.paints.length = 0 then
        .error ("Color style " ++ style.name ++ " has no paints defined.")
      else
        .ok { node with fills := some style.paints }

/-- Translation of `applyStrokeColorStyle` (code.ts lines 163-173). -/
def applyStrokeColorStyle (styles : List PaintStyle) (node : Node)
    (styleId : String) : Except String Node :=
  match styles.find? (fun style => style.id = styleId) with
  | none => .error ("Color style with ID " ++ styleId ++ " not found.")
  | some style =>
      if style.paints.length = 0 then
        .error ("Color style " ++ style.name ++ " has no paints defined.")
      else
        .ok { node with strokes := some style.paints }

/-- Translation of `exportableNodeTypes` (code.ts lines 176-205). -/
def exportableNodeTypes : List String :=
  ["BOOLEAN_OPERATION", "CODE_BLOCK", "COMPONENT", "COMPONENT_SET",
   "CONNECTOR", "ELLIPSE", "EMBED", "FRAME", "GROUP", "HIGHLIGHT",
   "INSTANCE", "LINE", "LINK_UNFURL", "MEDIA", "PAGE", "POLYGON",
   "RECTANGLE", "SECTION", "SHAPE_WITH_TEXT", "SLICE", "STAMP", "STAR",
   "STICKY", "TABLE", "TEXT", "VECTOR", "WASHI_TAPE", "WIDGET"]

/-- Translation of `isExportable` (code.ts lines 208-210). -/
def isExportable (node : Node) : Bool :=
  exportableNodeTypes.contains node.type


/-- A nested (leaf) property schema in the `list-functions` catalog, as
used for the `r`/`g`/`b` channels of `create.color.style`'s `color`
parameter: only a `type`. -/
structure LeafSchema where
  type : String
  deriving DecidableEq, Repr

/-- A top-level parameter schema in the `list-functions` catalog. -/
structure ParamSchema where
  type : String
  description : Option String := none
  properties : List (String × LeafSchema) := []
  required : List String := []
  deriving DecidableEq, Repr

/-- The `inputSchema` object of a catalog entry. -/
structure InputSchema where
  type : String
  properties : List (String × ParamSchema) := []
  required : List String := []
  deriving DecidableEq, Repr

/-- One entry of the `list-functions` catalog. -/
structure FunctionEntry where
  name : String
  description : String
  inputSchema : InputSchema
  deriving DecidableEq, Repr

/-- The static catalog returned by the `list-functions` case
(code.ts lines 469-665), transcribed verbatim. -/
def listFunctionsCatalog : List FunctionEntry :=
  [{ name := "get.selection"
     description := "Get information about the currently selected nodes"
     inputSchema := { type := "object" } },
   { name := "get.selection.details"
     description := "Get detailed information about selected nodes including children, constraints, and layout properties"
     inputSchema := { type := "object" } },
   { name := "create.rectangle"
     description := "Create a rectangle in Figma"
     inputSchema :=
       { type := "object"
         properties :=
           [("x", { type := "number"
                    description := some "X coordinate of the rectangle" }),
            ("y", { type := "number"
                    description := some "Y coordinate of the rectangle" })] } },
   { name := "create.text"
     description := "Create a text element in Figma"
     inputSchema :=
       { type := "object"
         properties :=
           [("x", { type := "number"
                    description := some "X coordinate of the text" }),
            ("y", { type := "number"
                    description := some "Y coordinate of the text" }),
            ("text", { type := "string"
                       description := some "Text content" })] } },
   { name := "get.color.styles"
     description := "Get a list of all color styles in the document"
     inputSchema := { type := "object" } },
   { name := "create.color.style"
     description := "Create or update a color style"
     inputSchema :=
       { type := "object"
         properties :=
           [("name", { type := "string"
                       description := some "Name of the color style" }),
            ("color", { type := "object"
                        description := some "RGB color object"
                        properties :=
                          [("r", { type := "number" }),
                           ("g", { type := "number" }),
                           ("b", { type := "number" })]
                        required := ["r", "g", "b"] })]
         required := ["name", "color"] } },
   { name := "export.selection"
     description := "Export the currently selected node"
     inputSchema :=
       { type := "object"
         properties :=
           [("format", { type := "string"
                         description := some "Export format (PNG, JPG, SVG, PDF)" }),
            ("scale", { type := "number"
                        description := some "Export scale (optional, default 1)" })]
         required := ["format"] } },
   { name := "set.fill.color"
     description := "Set fill color or gradient for the selected node"
     inputSchema :=
       { type := "object"
         properties :=
           [("value", { type := "object"
                        description := some "Color or gradient object" }),
            ("styleId", { type := "string"
                          description := some "ID of the color style to apply (optional)" })] } },
   { name := "set.stroke.color"
     description := "Set stroke color or gradient for the selected node"
     inputSchema :=
       { type := "object"
         properties :=
           [("value", { type := "object"
                        description := some "Color or gradient object" }),
            ("styleId", { type := "string"
                          description := some "ID of the color style to apply (optional)" })] } },
   { name := "set.stroke.weight"
     description := "Set stroke weight for the selected node"
     inputSchema :=
       { type := "object"
         properties :=
           [("value", { type := "number"
                        description := some "Stroke weight number" })]
         required := ["value"] } },
   { name := "set.effect"
     description := "Set effect for the selected node"
     inputSchema :=
       { type := "object"
         properties :=
           [("value", { type := "object"
                        description := some "Effect object" })]
         required := ["value"] } },
   { name := "figma.ping"
     description := "Ping the Figma plugin to check its status"
     inputSchema :=
       { type := "object"
         properties :=
           [("message", { type := "string"
                          description := some "Message to send with the ping" }),
            ("timestamp", { type := "string"
                            description := some "Timestamp of the ping" })] } }]

/-- An export constraint `{type: 'SCALE', value}`. -/
structure ExportConstraint where
  type : String
  value : Rat
  deriving DecidableEq, Repr

/-- `ExportSettings` as built by the `export-selection` case: a format and,
for PNG/JPG only, a constraint. -/
structure ExportSettings where
  format : String
  constraint : Option ExportConstraint := none
  deriving DecidableEq, Repr

/-- A host API call whose occurrence matters to the specification. -/
inductive HostCall where
  | exportAsync (nodeId : String) (settings : ExportSettings)
  | scrollAndZoomIntoView (nodeIds : List String)
  deriving DecidableEq, Repr

/-- `figma.viewport`: zoom plus the center point. -/
structure Viewport where
  zoom : Rat
  centerX : Rat
  centerY : Rat
  deriving DecidableEq, Repr

/-- Identity of `figma.currentPage` as read by `figma-ping`. -/
structure PageInfo where
  id : String
  name : String
  deriving DecidableEq, Repr

/-- The part of the Figma host visible to the plugin code: the current
selection, the local paint styles, the viewport, the current page, an
abstract clock (`new Date().toISOString()`), the opaque bytes returned by
`exportAsync`, a counter for host-assigned fresh ids, and a log of the
host calls made. -/
structure FigmaState where
  selection : List Node := []
  localPaintStyles : List PaintStyle := []
  viewport : Viewport := { zoom := 1, centerX := 0, centerY := 0 }
  currentPage : PageInfo := { id := "0:1", name := "Page 1" }
  nowIso : String := ""
  exportedBytes : String := ""
  nextId : Nat := 0
  callLog : List HostCall := []
  deriving DecidableEq, Repr

/-- The host-assigned id of the next node the host creates. -/
def freshNodeId (st : FigmaState) : String :=
  "node:" ++ toString st.nextId

/-- The host-assigned id of the next style the host creates. -/
def freshStyleId (st : FigmaState) : String :=
  "style:" ++ toString st.nextId

/-- The node `figma.createRectangle()` returns: a `RECTANGLE` with the
host defaults (100x100 at the origin, one default solid gray fill, no
strokes). -/
def newRectangle (id : String) : Node :=
  { id := id
    type := "RECTANGLE"
    name := "Rectangle"
    visible := some true
    locked := some false
    width := some 100
    height := some 100
    x := some 0
    y := some 0
    fills := some [{ type := "SOLID", color := some ⟨217/255, 217/255, 217/255⟩ }]
    strokes := some []
    strokeWeight := some 1
    effects := some [] }

/-- The node `figma.createText()` returns: a `TEXT` node with the host
defaults and empty characters. -/
def newText (id : String) : Node :=
  { id := id
    type := "TEXT"
    name := "Text"
    visible := some true
    locked := some false
    width := some 0
    height := some 14
    x := some 0
    y := some 0
    fills := some [{ type := "SOLID", color := some ⟨0, 0, 0⟩ }]
    strokes := some []
    strokeWeight := some 1
    effects := some []
    characters := some "" }

/-- The result object produced by `figma-ping` (code.ts lines 450-467);
the nested `plugin_info`/`viewport`/`current_page` objects are flattened
field by field. -/
structure PingInfo where
  status : String
  timestamp : String
  received_message : Option String
  received_timestamp : Option String
  version : String
  zoom : Rat
  centerX : Rat
  centerY : Rat
  pageId : String
  pageName : String
  selectionCount : Nat
  deriving DecidableEq, Repr

/-- The `result` value a handler can produce, one constructor per shape
appearing in the `switch` of `figma.ui.onmessage`. -/
inductive RValue where
  | projections (l : List NodeProjection)
  | detailed (l : List DetailedProjection)
  | created (id : String)
  | styleInfos (l : List PaintStyleInfo)
  | styleCreated (styleId : String)
  | exported (data : String) (format : String) (scale : Rat)
  | status (s : String)
  | ping (info : PingInfo)
  | functions (catalog : List FunctionEntry)
  deriving DecidableEq, Repr

/-- The error object `{message}` of an error Response. -/
structure ErrObj where
  message : String
  deriving DecidableEq, Repr

/-- The message posted back by `figma.ui.postMessage`: `{id, result}` on
success, `{id, error: {message}}` on failure (an absent key is `none`). -/
structure Response where
  id : String
  result : Option RValue := none
  error : Option ErrObj := none
  deriving DecidableEq, Repr

/-- An incoming command message `{id, method, ...params}`: the parameter
bag is flattened into the message, each parameter `Option`al
(`undefined` when absent). -/
structure CommandMessage where
  id : String
  method : String
  x : Option Rat := none
  y : Option Rat := none
  text : Option String := none
  name : Option String := none
  color : Option RGB := none
  format : Option String := none
  scale : Option Rat := none
  value : Option ParamValue := none
  styleId : Option String := none
  message : Option String := none
  timestamp : Option String := none
  deriving DecidableEq, Repr

/-- The set of method strings with a `case` in the dispatch `switch`
(code.ts lines 220-669), in source order; `get-selection` has a second,
unreachable duplicate case at line 287. -/
def dispatchMethods : List String :=
  ["get-selection", "get-selection-details", "create-rectangle",
   "create-text", "get-color-styles", "create-color-style",
   "export-selection", "set-fill-color", "set-stroke-color",
   "set-stroke-weight", "set-effect", "figma-ping", "list-functions"]

/-- Translation of the body of the `try` block of `figma.ui.onmessage`
(code.ts lines 219-669): the `switch (method)` as an exact-equality
if-chain (a `switch` on strict string equality), returning the updated
host state and either the handler's `result` value or the thrown error's
message. -/
def runCommand (msg : CommandMessage) (st : FigmaState) :
    FigmaState × Except String RValue :=
  if msg.method = "get-selection" then
    (st, .ok (.projections (st.selection.map getNodeProperties)))
  else if msg.method = "get-selection-details" then
    (st, .ok (.detailed (st.selection.map getDetailedNodeProperties)))
  else if msg.method = "create-rectangle" then
    let rect := newRectangle (freshNodeId st)
    let rect := { rect with
      x := some (jsOrNum msg.x st.viewport.centerX)
      y := some (jsOrNum msg.y st.viewport.centerY) }
    ({ st with nextId := st.nextId + 1
               callLog := st.callLog ++ [.scrollAndZoomIntoView [rect.id]]
               selection := [rect] },
     .ok (.created rect.id))
  else if msg.method = "create-text" then
    let text := newText (freshNodeId st)
    let text := { text with
      x := some (jsOrNum msg.x st.viewport.centerX)
      y := some (jsOrNum msg.y st.viewport.centerY)
      characters := some (jsOrStr msg.text "Hello World") }
    ({ st with nextId := st.nextId + 1
               callLog := st.callLog ++ [.scrollAndZoomIntoView [text.id]]
               selection := [text] },
     .ok (.created text.id))
  -- the second `case 'get-selection'` at code.ts line 287 is unreachable
  -- (the first case above wins), so no branch arises here
  else if msg.method = "get-color-styles" then
    (st, .ok (.styleInfos (st.localPaintStyles.map extractPaintStyleInfo)))
  else if msg.method = "create-color-style" then
    match msg.name, msg.color with
    | some name, some color =>
        if name = "" then (st, .error "Name and color are required.")
        else
          let r := createOrUpdateColorStyle st.localPaintStyles
            (freshStyleId st) name color
          ({ st with localPaintStyles := r.1, nextId := st.nextId + 1 },
           .ok (.styleCreated r.2.id))
    | _, _ => (st, .error "Name and color are required.")
  else if msg.method = "export-selection" then
    match st.selection with
    | [] => (st, .error "Please select a node to export.")
    | selectedNode :: _ =>
        if ¬ strTruthy msg.format then
          (st, .error "Format is required for exporting.")
        else if ¬ isExportable selectedNode then
          (st, .error ("Node type " ++ selectedNode.type ++ " is not exportable."))
        else
          let format := msg.format.getD ""
          let exportScale := jsOrNum msg.scale 1
          let settings : Except String ExportSettings :=
            if strToUpper format = "PNG" then
              .ok { format := "PNG"
                    constraint := some { type := "SCALE", value := exportScale } }
            else if strToUpper format = "JPG" then
              .ok { format := "JPG"
                    constraint := some { type := "SCALE", value := exportScale } }
            else if strToUpper format = "SVG" then .ok { format := "SVG" }
            else if strToUpper format = "PDF" then .ok { format := "PDF" }
            else .error ("Unsupported export format: " ++ format)
          match settings with
          | .error e => (st, .error e)
          | .ok settings =>
              ({ st with callLog :=
                   st.callLog ++ [.exportAsync selectedNode.id settings] },
               .ok (.exported st.exportedBytes format exportScale))
  else if msg.method = "set-fill-color" then
    match st.selection with
    | [] => (st, .error "Please select a node to set fill color.")
    | nodeToFill :: restSel =>
        if strTruthy msg.styleId then
          match applyFillColorStyle st.localPaintStyles nodeToFill
              (msg.styleId.getD "") with
          | .error e => (st, .error e)
          | .ok node =>
              ({ st with selection := node :: restSel },
               .ok (.status "Fill color set successfully."))
        else match msg.value with
          | some v =>
              if v.truthy then
                match v with
                | .paint p =>
                    if p.type = "SOLID" then
                      ({ st with selection := setFillColor nodeToFill p.color :: restSel },
                       .ok (.status "Fill color set successfully."))
                    else if strStartsWith p.type "GRADIENT" then
                      ({ st with selection := setFillGradient nodeToFill p :: restSel },
                       .ok (.status "Fill color set successfully."))
                    else
                      (st, .error ("Unsupported paint type for fills: " ++ p.type))
                | .num _ =>
                    -- value.type is undefined here, so `=== 'SOLID'` is false
                    -- and `value.type.startsWith` throws a TypeError that is
                    -- caught at the dispatch boundary
                    (st, .error "Cannot read properties of undefined (reading \x27startsWith\x27)")
              else
                (st, .error "Either \x27value\x27 (color/gradient) or \x27styleId\x27 is required for setting fill color.")
          | none =>
              (st, .error "Either \x27value\x27 (color/gradient) or \x27styleId\x27 is required for setting fill color.")
  else if msg.method = "set-stroke-color" then
    match st.selection with
    | [] => (st, .error "Please select a node to set stroke color.")
    | nodeToStroke :: restSel =>
        if strTruthy msg.styleId then
          match applyStrokeColorStyle st.localPaintStyles nodeToStroke
              (msg.styleId.getD "") with
          | .error e => (st, .error e)
          | .ok node =>
              ({ st with selection := node :: restSel },
               .ok (.status "Stroke color set successfully."))
        else match msg.value with
          | some v =>
              if v.truthy then
                match v with
                | .paint p =>
                    if p.type = "SOLID" then
                      ({ st with selection := setStrokeColor nodeToStroke p.color :: restSel },
                       .ok (.status "Stroke color set successfully."))
                    else if strStartsWith p.type "GRADIENT" then
                      ({ st with selection := setStrokeGradient nodeToStroke p :: restSel },
                       .ok (.status "Stroke color set successfully."))
                    else
                      (st, .error ("Unsupported paint type for strokes: " ++ p.type))
                | .num _ =>
                    (st, .error "Cannot read properties of undefined (reading \x27startsWith\x27)")
              else
                (st, .error "Either \x27value\x27 (color/gradient) or \x27styleId\x27 is required for setting stroke color.")
          | none =>
              (st, .error "Either \x27value\x27 (color/gradient) or \x27styleId\x27 is required for setting stroke color.")
  else if msg.method = "set-stroke-weight" then
    match st.selection with
    | [] => (st, .error "Please select a node to set stroke weight.")
    | node :: restSel =>
        match msg.value with
        | some (.num n) =>
            ({ st with selection := setStrokeWeight node n :: restSel },
             .ok (.status "Stroke weight set successfully."))
        | _ =>
            (st, .error "\x27value\x27 is required and must be a number for setting stroke weight.")
  else if msg.method = "set-effect" then
    match st.selection with
    | [] => (st, .error "Please select a node to set effect.")
    | node :: restSel =>
        match msg.value with
        | some v =>
            if v.truthy then
              ({ st with selection := setEffect node v :: restSel },
               .ok (.status "Effect set successfully."))
            else
              (st, .error "\x27value\x27 (effect object) is required for setting an effect.")
        | none =>
            (st, .error "\x27value\x27 (effect object) is required for setting an effect.")
  else if msg.method = "figma-ping" then
    (st, .ok (.ping
      { status := "ok"
        timestamp := st.nowIso
        received_message := msg.message
        received_timestamp := msg.timestamp
        version := "1.0.0"
        zoom := st.viewport.zoom
        centerX := st.viewport.centerX
        centerY := st.viewport.centerY
        pageId := st.currentPage.id
        pageName := st.currentPage.name
        selectionCount := st.selection.length }))
  else if msg.method = "list-functions" then
    (st, .ok (.functions listFunctionsCatalog))
  else
    (st, .error ("Unknown command: " ++ msg.method))

/-- Translation of `figma.ui.onmessage` (code.ts lines 213-683): run the
`switch` inside `try`; a normal return posts `{id, result}`, a caught
error posts `{id, error: {message}}`.  The returned `Response` is the one
message posted back for this command. -/
def dispatch (msg : CommandMessage) (st : FigmaState) :
    FigmaState × Response :=
  match runCommand msg st with
  | (st2, .ok v) => (st2, { id := msg.id, result := some v })
  | (st2, .error e) => (st2, { id := msg.id, error := some { message := e } })

/-- A JSON value as the UI page relays it (the page never inspects the
payload beyond the `pluginMessage` wrapper key). -/
inductive Json where
  | null
  | bool (b : Bool)
  | num (n : Rat)
  | str (s : String)
  | arr (elems : List Json)
  | obj (fields : List (String × Json))
  deriving Repr

/-- Property access `j.key` on a JSON value: `none` is `undefined`. -/
def Json.getProp (j : Json) (key : String) : Option Json :=
  match j with
  | .obj fields => (fields.find? (fun f => f.1 = key)).map (fun f => f.2)
  | _ => none

/-- JavaScript truthiness of a JSON value. -/
def Json.truthy : Json → Bool
  | .null => false
  | .bool b => b
  | .num n => n ≠ 0
  | .str s => s ≠ ""
  | .arr _ => true
  | .obj _ => true

/-- Translation of `ws.onmessage` in the UI page: `JSON.parse(event.data)`
either yields a value (`Except.ok`) or throws (`Except.error`, the
`catch` logs and drops the frame).  On success the value is forwarded to
the plugin as `parent.postMessage({pluginMessage: message}, '*')`; the
return value is the message posted, `none` when nothing is forwarded —
and a frame that is not forwarded never reaches the dispatcher, so no
Response is produced for it. -/
def wsOnMessage (parsed : Except String Json) : Option Json :=
  match parsed with
  | .ok message => some (Json.obj [("pluginMessage", message)])
  | .error _ => none

/-- Translation of `window.onmessage` in the UI page: the payload is sent
on the websocket only when `event.data.pluginMessage` is truthy; in
particular a message lacking the wrapper key is ignored.  Returns the
value passed to `ws.send`, `none` when nothing is sent. -/
def windowOnMessage (data : Json) : Option Json :=
  match data.getProp "pluginMessage" with
  | some pm => if pm.truthy then some pm else none
  | none => none

/-- Connection state of the UI page's websocket leg. -/
inductive ConnState where
  | CONNECTING
  | OPEN
  | CLOSED
  deriving DecidableEq, Repr

/-- The reconnect delay hard-coded in the UI page, in milliseconds
(`setTimeout(function() { connect(); }, 3000)`). -/
def reconnectDelayMs : Nat := 3000

/-- State of the execution-context transport: the connection state, whether
a socket object exists whose events can still fire, and the delays of the
scheduled but not yet fired reconnect timers. -/
structure Transport where
  conn : ConnState
  socketAlive : Bool
  pendingReconnects : List Nat
  deriving DecidableEq, Repr

/-- `connect()` in the UI page: create a fresh socket (state
`CONNECTING`); pending timers are untouched. -/
def connect (t : Transport) : Transport :=
  { conn := .CONNECTING
    socketAlive := true
    pendingReconnects := t.pendingReconnects }

/-- The transport state right after the initial `connect()` at page load:
no reconnect timer pending. -/
def initTransport : Transport :=
  { conn := .CONNECTING, socketAlive := true, pendingReconnects := [] }

/-- The event object delivered to `ws.onclose`. -/
structure CloseEvent where
  wasClean : Bool
  code : Nat
  reason : String
  deriving DecidableEq, Repr

/-- An event the transport can experience. -/
inductive TransportEvent where
  | sockOpen
  | sockClose (e : CloseEvent)
  | sockError
  | timerFire
  deriving DecidableEq, Repr

/-- One transition of the transport, from the UI page's handlers:
`ws.onopen` marks the connection open; `ws.onclose` — whatever
`wasClean`/`code`/`reason` are, they only feed the status text — marks it
closed, the socket dead, and schedules exactly one reconnect after
`reconnectDelayMs`; `ws.onerror` calls `ws.close()`, which fires the same
close path rather than recovering in place; a timer firing runs
`connect()`.  Events of a socket that no longer exists do not fire. -/
def transportStep (t : Transport) : TransportEvent → Transport
  | .sockOpen => if t.socketAlive then { t with conn := .OPEN } else t
  | .sockClose _ =>
      if t.socketAlive then
        { conn := .CLOSED
          socketAlive := false
          pendingReconnects := t.pendingReconnects ++ [reconnectDelayMs] }
      else t
  | .sockError =>
      if t.socketAlive then
        { conn := .CLOSED
          socketAlive := false
          pendingReconnects := t.pendingReconnects ++ [reconnectDelayMs] }
      else t
  | .timerFire =>
      match t.pendingReconnects with
      | [] => t
      | _ :: rest => connect { t with pendingReconnects := rest }

/-- The transport states reachable from page load. -/
inductive TransportReachable : Transport → Prop where
  | init : TransportReachable initTransport
  | step (t : Transport) (e : TransportEvent) :
      TransportReachable t → TransportReachable (transportStep t e)

/-- The Responses produced for one incoming websocket frame, given a
decoder from the forwarded JSON object to a typed command: a forwarded
frame is unwrapped by the plugin-side `figma.ui.onmessage` and dispatched;
a dropped frame reaches no dispatcher and yields no Response. -/
def wsFrameResponses (decode : Json → CommandMessage) (st : FigmaState)
    (parsed : Except String Json) : List Response :=
  match wsOnMessage parsed with
  | some fwd =>
      match fwd.getProp "pluginMessage" with
      | some m => [(dispatch (decode m) st).2]
      | none => []
  | none => []

/-- C1: for every incoming Command message handled by the dispatcher,
exactly one Response message is posted back (the one returned by
`dispatch`), it carries the same `id` as the Command, and it contains
exactly one of `result`/`error` — never both, never neither — including
when the selected handler throws (the `Except.error` branch of
`runCommand`). -/
theorem dispatch_one_response_same_id (msg : CommandMessage) (st : FigmaState) :
    (dispatch msg st).2.id = msg.id ∧
      ((dispatch msg st).2.result.isSome ↔ (dispatch msg st).2.error = none) := by
  rcases h : runCommand msg st with ⟨st2, r⟩
  cases r <;> simp [dispatch, h]

/-- C6: handler resolution is an exact string match of `method` against
the static command table `dispatchMethods`; for every method string not in
the table, the Response is an error whose message equals
`"Unknown command: <method>"`, with the Command's id echoed. -/
theorem dispatch_unknown_command (msg : CommandMessage) (st : FigmaState)
    (h : msg.method ∉ dispatchMethods) :
    (dispatch msg st).2 =
      { id := msg.id
        error := some { message := "Unknown command: " ++ msg.method } } := by
  simp only [dispatchMethods, List.mem_cons, List.not_mem_nil, or_false, not_or] at h
  obtain ⟨h1, h2, h3, h4, h5, h6, h7, h8, h9, h10, h11, h12, h13⟩ := h
  simp [dispatch, runCommand, h1, h2, h3, h4, h5, h6, h7, h8, h9, h10, h11, h12, h13]

/-- Witness for C6 at the concrete method `"bogus-method"`. -/
theorem dispatch_unknown_command_witness :
    "bogus-method" ∉ dispatchMethods ∧
      (dispatch { id := "w6", method := "bogus-method" } {}).2 =
        { id := "w6", error := some { message := "Unknown command: bogus-method" } } :=
  ⟨by decide,
   dispatch_unknown_command { id := "w6", method := "bogus-method" } {} (by decide)⟩

/-- C8: a transport payload that fails to parse as JSON is logged and
dropped — nothing is forwarded to the plugin, the dispatcher is never
invoked, and no Response is produced — and an inbound window message
whose `pluginMessage` wrapper key is absent is ignored entirely (nothing
is sent on the websocket). -/
theorem transport_drops_malformed :
    (∀ err : String, wsOnMessage (.error err) = none) ∧
    (∀ (decode : Json → CommandMessage) (st : FigmaState) (err : String),
        wsFrameResponses decode st (.error err) = []) ∧
    (∀ data : Json, data.getProp "pluginMessage" = none →
        windowOnMessage data = none) := by
  refine ⟨fun err => rfl, fun decode st err => rfl, fun data h => ?_⟩
  unfold windowOnMessage
  rw [h]

/-- Witness for C8: a failed parse forwards nothing and yields no
Response, and a window message without the wrapper key sends nothing. -/
theorem transport_drops_malformed_witness :
    wsOnMessage (.error "Unexpected token") = none ∧
      wsFrameResponses (fun _ => { id := "x", method := "x" }) {}
        (.error "Unexpected token") = [] ∧
      windowOnMessage (Json.obj [("other", Json.null)]) = none :=
  ⟨transport_drops_malformed.1 "Unexpected token",
   transport_drops_malformed.2.1 (fun _ => { id := "x", method := "x" }) {}
     "Unexpected token",
   transport_drops_malformed.2.2 (Json.obj [("other", Json.null)]) rfl⟩

/-- Invariant of the reachable transport states: while a socket is alive no
reconnect timer is pending, and never is more than one reconnect timer
pending. -/
theorem transport_invariant (t : Transport) (h : TransportReachable t) :
    (t.socketAlive = true → t.pendingReconnects = []) ∧
      t.pendingReconnects.length ≤ 1 := by
  induction h with
  | init => simp [initTransport]
  | step t e _ ih =>
      obtain ⟨ih1, ih2⟩ := ih
      cases e with
      | sockOpen =>
          by_cases hA : t.socketAlive = true <;>
            simp [transportStep, hA, ih1, ih2]
      | sockClose ev =>
          by_cases hA : t.socketAlive = true
          · simp [transportStep, hA, ih1 hA]
          · simp only [transportStep, hA]
            simp_all
      | sockError =>
          by_cases hA : t.socketAlive = true
          · simp [transportStep, hA, ih1 hA]
          · simp only [transportStep, hA]
            simp_all
      | timerFire =>
          rcases hp : t.pendingReconnects with _ | ⟨d, rest⟩
          · simp [transportStep, hp, ih1, ih2]
          · have : rest = [] := by
              rw [hp] at ih2
              simpa using ih2
            simp [transportStep, hp, connect, this]

/-- C7: after every close event of a live socket — clean or unclean,
whatever the close code and reason — the state becomes `CLOSED` and
exactly one reconnect is pending, scheduled with the fixed 3000 ms delay;
in every reachable state at most one reconnect is pending, so no second
attempt is ever scheduled while the delayed one is outstanding; and a
socket-level error takes exactly the same transition as a close, rather
than recovering in place. -/
theorem transport_reconnect_discipline (t : Transport)
    (h : TransportReachable t) :
    (∀ e : CloseEvent, t.socketAlive = true →
        (transportStep t (.sockClose e)).conn = .CLOSED ∧
        (transportStep t (.sockClose e)).pendingReconnects = [reconnectDelayMs]) ∧
    t.pendingReconnects.length ≤ 1 ∧
    (∀ e : CloseEvent, transportStep t .sockError = transportStep t (.sockClose e)) := by
  obtain ⟨h1, h2⟩ := transport_invariant t h
  refine ⟨fun e hA => ?_, h2, fun e => rfl⟩
  simp [transportStep, hA, h1 hA]

/-- Witness for C7 at the initial state and a concrete clean close event:
the state becomes `CLOSED` with exactly one 3000 ms reconnect pending. -/
theorem transport_reconnect_discipline_witness :
    (transportStep initTransport (.sockClose ⟨true, 1000, "normal"⟩)).conn = .CLOSED ∧
      (transportStep initTransport
        (.sockClose ⟨true, 1000, "normal"⟩)).pendingReconnects = [reconnectDelayMs] :=
  (transport_reconnect_discipline initTransport .init).1 ⟨true, 1000, "normal"⟩ rfl

/-- Field-by-field characterization of the flat projection built by
`getNodePropertiesCore`. -/
theorem getNodePropertiesCore_eq (n : NodeCore) :
    getNodePropertiesCore n =
      { id := n.id
        type := n.type
        name := n.name
        visible := n.visible
        locked := n.locked
        width := if n.width.isSome ∧ n.height.isSome then n.width else none
        height := if n.width.isSome ∧ n.height.isSome then n.height else none
        x := if n.x.isSome ∧ n.y.isSome then n.x else none
        y := if n.x.isSome ∧ n.y.isSome then n.y else none
        fills := n.fills
        strokes := n.strokes
        strokeWeight := if n.strokes.isSome then n.strokeWeight else none } := by
  unfold getNodePropertiesCore
  cases hw : n.width <;> cases hh : n.height <;> cases hx : n.x <;> cases hy : n.y <;>
    cases hf : n.fills <;> cases hs : n.strokes <;> simp

/-- Field-by-field characterization of the detailed projection. -/
theorem getDetailedNodeProperties_eq (n : Node) :
    getDetailedNodeProperties n =
      { toNodeProjection := getNodeProperties n
        children := n.children.map (fun cs => cs.map getNodePropertiesCore)
        constraints := n.constraints
        layout := n.layout } := by
  unfold getDetailedNodeProperties
  cases hc : n.children <;> cases hco : n.constraints <;> cases hl : n.layout <;> simp

/-- C4: for every node the Property Projector succeeds (it is a total
function), always yields the identity fields `id`/`type`/`name`, and
yields each optional field — visibility/lock flags, width/height, x/y,
fills, strokes with stroke weight, and (in the detailed variant)
children, constraints, layout — exactly when the node exposes the
corresponding capability: a node lacking a capability yields a projection
in which that field is absent, not an error. -/
theorem projector_capability_gating (node : Node) :
    (getNodeProperties node).id = node.id ∧
    (getNodeProperties node).type = node.type ∧
    (getNodeProperties node).name = node.name ∧
    (getNodeProperties node).visible = node.visible ∧
    (getNodeProperties node).locked = node.locked ∧
    (getNodeProperties node).fills = node.fills ∧
    (getNodeProperties node).strokes = node.strokes ∧
    (node.strokes = none → (getNodeProperties node).strokeWeight = none) ∧
    (node.strokes ≠ none → (getNodeProperties node).strokeWeight = node.strokeWeight) ∧
    ((node.width = none ∨ node.height = none) →
      (getNodeProperties node).width = none ∧ (getNodeProperties node).height = none) ∧
    (node.width ≠ none → node.height ≠ none →
      (getNodeProperties node).width = node.width ∧
        (getNodeProperties node).height = node.height) ∧
    ((node.x = none ∨ node.y = none) →
      (getNodeProperties node).x = none ∧ (getNodeProperties node).y = none) ∧
    (node.x ≠ none → node.y ≠ none →
      (getNodeProperties node).x = node.x ∧ (getNodeProperties node).y = node.y) ∧
    ((getDetailedNodeProperties node).toNodeProjection = getNodeProperties node) ∧
    ((getDetailedNodeProperties node).children =
      node.children.map (fun cs => cs.map getNodePropertiesCore)) ∧
    ((getDetailedNodeProperties node).constraints = node.constraints) ∧
    ((getDetailedNodeProperties node).layout = node.layout) := by
  have hcore := getNodePropertiesCore_eq node.toNodeCore
  have hdet := getDetailedNodeProperties_eq node
  refine ⟨?_, ?_, ?_, ?_, ?_, ?_, ?_, ?_, ?_, ?_, ?_, ?_, ?_, ?_, ?_, ?_, ?_⟩ <;>
    simp only [getNodeProperties, hcore, hdet]
  · intro h
    simp [h]
  · intro h
    simp [Option.isSome_iff_ne_none, h]
  · rintro (h | h) <;> simp [h]
  · intro h1 h2
    simp [Option.isSome_iff_ne_none, h1, h2]
  · rintro (h | h) <;> simp [h]
  · intro h1 h2
    simp [Option.isSome_iff_ne_none, h1, h2]

/-- A node exposing no optional capability (e.g. a bare slice). -/
def bareNode : Node := { id := "b1", type := "SLICE", name := "Bare" }

/-- A node exposing every optional capability (an auto-layout frame). -/
def richNode : Node :=
  { id := "r1"
    type := "FRAME"
    name := "Rich"
    visible := some true
    locked := some false
    width := some 10
    height := some 20
    x := some 1
    y := some 2
    fills := some [{ type := "SOLID", color := some ⟨1, 0, 0⟩ }]
    strokes := some []
    strokeWeight := some 2
    children := some [{ id := "c1", type := "TEXT", name := "Child" }]
    constraints := some { horizontal := "MIN", vertical := "MAX" }
    layout := some
      { layoutMode := "HORIZONTAL"
        primaryAxisAlignItems := "MIN"
        counterAxisAlignItems := "CENTER"
        paddingLeft := 1
        paddingRight := 2
        paddingTop := 3
        paddingBottom := 4
        itemSpacing := 5 } }

/-- Witness for C4: on a node with no optional capabilities every gated
field is absent, and on a fully-capable node each gated field is
present. -/
theorem projector_capability_gating_witness :
    ((getNodeProperties bareNode).strokeWeight = none ∧
      (getNodeProperties bareNode).width = none ∧
      (getNodeProperties bareNode).height = none ∧
      (getNodeProperties bareNode).x = none ∧
      (getNodeProperties bareNode).y = none) ∧
    ((getNodeProperties richNode).strokeWeight = richNode.strokeWeight ∧
      (getNodeProperties richNode).width = richNode.width ∧
      (getNodeProperties richNode).height = richNode.height ∧
      (getNodeProperties richNode).x = richNode.x ∧
      (getNodeProperties richNode).y = richNode.y) := by
  obtain ⟨_, _, _, _, _, _, _, hb8, _, hb10, _, hb12, _, _, _, _, _⟩ :=
    projector_capability_gating bareNode
  obtain ⟨_, _, _, _, _, _, _, _, hr9, _, hr11, _, hr13, _, _, _, _⟩ :=
    projector_capability_gating richNode
  refine ⟨⟨hb8 rfl, (hb10 (Or.inl rfl)).1, (hb10 (Or.inl rfl)).2,
    (hb12 (Or.inl rfl)).1, (hb12 (Or.inl rfl)).2⟩,
    ⟨hr9 (by simp [richNode]),
     (hr11 (by simp [richNode]) (by simp [richNode])).1,
     (hr11 (by simp [richNode]) (by simp [richNode])).2,
     (hr13 (by simp [richNode]) (by simp [richNode])).1,
     (hr13 (by simp [richNode]) (by simp [richNode])).2⟩⟩

/-- C2: applying a named style (via `styleId`) to a node's fills or
strokes replaces the node's entire paint list with the style's paint
list; setting a direct solid color replaces only the first paint entry
when that entry is of type `SOLID`, and setting a direct gradient
replaces only the first entry when that entry's type starts with
`GRADIENT`; in all other cases (mismatched first entry, or an empty or
absent paint list) the new paint is inserted at the front and every
pre-existing paint entry is preserved behind it. -/
theorem paint_application_semantics :
    (∀ (styles : List PaintStyle) (node : Node) (sid : String) (n2 : Node),
        applyFillColorStyle styles node sid = .ok n2 →
        ∃ style, styles.find? (fun s => s.id = sid) = some style ∧
          n2.fills = some style.paints) ∧
    (∀ (styles : List PaintStyle) (node : Node) (sid : String) (n2 : Node),
        applyStrokeColorStyle styles node sid = .ok n2 →
        ∃ style, styles.find? (fun s => s.id = sid) = some style ∧
          n2.strokes = some style.paints) ∧
    (∀ (node : Node) (c : Option RGB) (p : Paint) (rest : List Paint),
        node.fills = some (p :: rest) → p.type = "SOLID" →
        (setFillColor node c).fills =
          some ({ type := "SOLID", color := c } :: rest)) ∧
    (∀ (node : Node) (c : Option RGB),
        (node.fills.getD [] = [] ∨
          ∃ p rest, node.fills.getD [] = p :: rest ∧ p.type ≠ "SOLID") →
        (setFillColor node c).fills =
          some ({ type := "SOLID", color := c } :: node.fills.getD [])) ∧
    (∀ (node : Node) (g : Paint) (p : Paint) (rest : List Paint),
        node.fills = some (p :: rest) → strStartsWith p.type "GRADIENT" = true →
        (setFillGradient node g).fills = some (g :: rest)) ∧
    (∀ (node : Node) (g : Paint),
        (node.fills.getD [] = [] ∨
          ∃ p rest, node.fills.getD [] = p :: rest ∧
            strStartsWith p.type "GRADIENT" = false) →
        (setFillGradient node g).fills = some (g :: node.fills.getD [])) ∧
    (∀ (node : Node) (c : Option RGB) (p : Paint) (rest : List Paint),
        node.strokes = some (p :: rest) → p.type = "SOLID" →
        (setStrokeColor node c).strokes =
          some ({ type := "SOLID", color := c } :: rest)) ∧
    (∀ (node : Node) (c : Option RGB),
        (node.strokes.getD [] = [] ∨
          ∃ p rest, node.strokes.getD [] = p :: rest ∧ p.type ≠ "SOLID") →
        (setStrokeColor node c).strokes =
          some ({ type := "SOLID", color := c } :: node.strokes.getD [])) ∧
    (∀ (node : Node) (g : Paint) (p : Paint) (rest : List Paint),
        node.strokes = some (p :: rest) → strStartsWith p.type "GRADIENT" = true →
        (setStrokeGradient node g).strokes = some (g :: rest)) ∧
    (∀ (node : Node) (g : Paint),
        (node.strokes.getD [] = [] ∨
          ∃ p rest, node.strokes.getD [] = p :: rest ∧
            strStartsWith p.type "GRADIENT" = false) →
        (setStrokeGradient node g).strokes =
          some (g :: node.strokes.getD [])) := by
  refine ⟨?_, ?_, ?_, ?_, ?_, ?_, ?_, ?_, ?_, ?_⟩
  · intro styles node sid n2 h
    unfold applyFillColorStyle at h
    rcases hf : styles.find? (fun s => s.id = sid) with _ | style <;> rw [hf] at h
    · simp at h
    · by_cases hl : style.paints.length = 0 <;> simp [hl] at h
      exact ⟨style, hf, by rw [← h]⟩
  · intro styles node sid n2 h
    unfold applyStrokeColorStyle at h
    rcases hf : styles.find? (fun s => s.id = sid) with _ | style <;> rw [hf] at h
    · simp at h
    · by_cases hl : style.paints.length = 0 <;> simp [hl] at h
      exact ⟨style, hf, by rw [← h]⟩
  · intro node c p rest hf hp
    unfold setFillColor
    simp [hf, hp]
  · intro node c h
    unfold setFillColor
    rcases h with h | ⟨p, rest, h, hp⟩
    · simp [h]
    · simp [h, hp]
  · intro node g p rest hf hp
    unfold setFillGradient
    simp [hf, hp]
  · intro node g h
    unfold setFillGradient
    rcases h with h | ⟨p, rest, h, hp⟩
    · simp [h]
    · simp [h, hp]
  · intro node c p rest hf hp
    unfold setStrokeColor
    simp [hf, hp]
  · intro node c h
    unfold setStrokeColor
    rcases h with h | ⟨p, rest, h, hp⟩
    · simp [h]
    · simp [h, hp]
  · intro node g p rest hf hp
    unfold setStrokeGradient
    simp [hf, hp]
  · intro node g h
    unfold setStrokeGradient
    rcases h with h | ⟨p, rest, h, hp⟩
    · simp [h]
    · simp [h, hp]

/-- A concrete solid paint. -/
def solidRed : Paint := { type := "SOLID", color := some ⟨1, 0, 0⟩ }

/-- A concrete linear-gradient paint. -/
def linGrad : Paint := { type := "GRADIENT_LINEAR", data := "g" }

/-- A node whose fills start with a gradient and whose strokes start with
a solid. -/
def nodeGS : Node :=
  { id := "n1", type := "RECTANGLE", name := "R"
    fills := some [linGrad, solidRed]
    strokes := some [solidRed, linGrad] }

/-- A node whose fills start with a solid and whose strokes start with a
gradient. -/
def nodeSF : Node :=
  { id := "n2", type := "ELLIPSE", name := "E"
    fills := some [solidRed, linGrad]
    strokes := some [linGrad, solidRed] }

/-- A concrete paint style. -/
def styleA : PaintStyle := { id := "s1", name := "A", paints := [solidRed, linGrad] }

/-- Witness for C2 at concrete nodes: style application replaces the whole
paint list; a solid over a solid-first list replaces only the head; a
solid over a gradient-first list is inserted in front of everything; and
symmetrically for gradients and for strokes. -/
theorem paint_application_semantics_witness :
    (∃ style, ([styleA].find? (fun s => s.id = "s1")) = some style ∧
      ({ nodeGS with fills := some styleA.paints } : Node).fills = some style.paints) ∧
    (∃ style, ([styleA].find? (fun s => s.id = "s1")) = some style ∧
      ({ nodeGS with strokes := some styleA.paints } : Node).strokes = some style.paints) ∧
    ((setFillColor nodeSF (some ⟨0, 1, 0⟩)).fills =
      some ({ type := "SOLID", color := some ⟨0, 1, 0⟩ } :: [linGrad])) ∧
    ((setFillColor nodeGS (some ⟨0, 1, 0⟩)).fills =
      some ({ type := "SOLID", color := some ⟨0, 1, 0⟩ } :: nodeGS.fills.getD [])) ∧
    ((setFillGradient nodeGS linGrad).fills = some (linGrad :: [solidRed])) ∧
    ((setFillGradient nodeSF linGrad).fills =
      some (linGrad :: nodeSF.fills.getD [])) ∧
    ((setStrokeColor nodeGS (some ⟨0, 1, 0⟩)).strokes =
      some ({ type := "SOLID", color := some ⟨0, 1, 0⟩ } :: [linGrad])) ∧
    ((setStrokeColor nodeSF (some ⟨0, 1, 0⟩)).strokes =
      some ({ type := "SOLID", color := some ⟨0, 1, 0⟩ } :: nodeSF.strokes.getD [])) ∧
    ((setStrokeGradient nodeSF linGrad).strokes = some (linGrad :: [solidRed])) ∧
    ((setStrokeGradient nodeGS linGrad).strokes =
      some (linGrad :: nodeGS.strokes.getD [])) := by
  obtain ⟨p1, p2, p3, p4, p5, p6, p7, p8, p9, p10⟩ := paint_application_semantics
  refine ⟨p1 [styleA] nodeGS "s1" _ rfl,
    p2 [styleA] nodeGS "s1" _ rfl,
    p3 nodeSF (some ⟨0, 1, 0⟩) solidRed [linGrad] rfl rfl,
    p4 nodeGS (some ⟨0, 1, 0⟩) (Or.inr ⟨linGrad, [solidRed], rfl, by decide⟩),
    p5 nodeGS linGrad linGrad [solidRed] rfl (by decide),
    p6 nodeSF linGrad (Or.inr ⟨solidRed, [linGrad], rfl, by decide⟩),
    p7 nodeGS (some ⟨0, 1, 0⟩) solidRed [linGrad] rfl rfl,
    p8 nodeSF (some ⟨0, 1, 0⟩) (Or.inr ⟨linGrad, [solidRed], rfl, by decide⟩),
    p9 nodeSF linGrad linGrad [solidRed] rfl (by decide),
    p10 nodeGS linGrad (Or.inr ⟨solidRed, [linGrad], rfl, by decide⟩)⟩

/-- C3: `export-selection` with an empty selection fails with the
precondition error and performs no host-API call (the state, including
the call log, is untouched); with a selected node whose type is outside
`exportableNodeTypes` it fails naming that node's type; the format is
matched case-insensitively, normalized to one of `PNG`/`JPG`/`SVG`/`PDF`
in the export settings (any other format fails); for PNG and JPG the
numeric scale (default 1) is applied as a `SCALE` export constraint,
while SVG and PDF carry no constraint, ignoring scale. -/
theorem export_selection_semantics :
    (∀ (msg : CommandMessage) (st : FigmaState),
        msg.method = "export-selection" → st.selection = [] →
        (dispatch msg st).1 = st ∧
        (dispatch msg st).2 =
          { id := msg.id
            error := some { message := "Please select a node to export." } }) ∧
    (∀ (msg : CommandMessage) (st : FigmaState) (node : Node) (rest : List Node),
        msg.method = "export-selection" → st.selection = node :: rest →
        strTruthy msg.format = true → isExportable node = false →
        (dispatch msg st).1 = st ∧
        (dispatch msg st).2 =
          { id := msg.id
            error := some
              { message := "Node type " ++ node.type ++ " is not exportable." } }) ∧
    (∀ (msg : CommandMessage) (st : FigmaState) (node : Node) (rest : List Node)
        (f : String),
        msg.method = "export-selection" → st.selection = node :: rest →
        msg.format = some f → f ≠ "" → isExportable node = true →
        ((strToUpper f = "PNG" ∨ strToUpper f = "JPG") →
          (dispatch msg st).1.callLog =
            st.callLog ++ [.exportAsync node.id
              { format := strToUpper f
                constraint := some { type := "SCALE", value := jsOrNum msg.scale 1 } }] ∧
          (dispatch msg st).2 =
            { id := msg.id
              result := some (.exported st.exportedBytes f (jsOrNum msg.scale 1)) }) ∧
        ((strToUpper f = "SVG" ∨ strToUpper f = "PDF") →
          (dispatch msg st).1.callLog =
            st.callLog ++ [.exportAsync node.id { format := strToUpper f }] ∧
          (dispatch msg st).2 =
            { id := msg.id
              result := some (.exported st.exportedBytes f (jsOrNum msg.scale 1)) }) ∧
        (strToUpper f ∉ (["PNG", "JPG", "SVG", "PDF"] : List String) →
          (dispatch msg st).1 = st ∧
          (dispatch msg st).2 =
            { id := msg.id
              error := some { message := "Unsupported export format: " ++ f } })) ∧
    jsOrNum none 1 = 1 ∧
    (∀ s : Rat, s ≠ 0 → jsOrNum (some s) 1 = s) := by
  refine ⟨?_, ?_, ?_, rfl, ?_⟩
  · intro msg st hm hsel
    simp [dispatch, runCommand, hm, hsel]
  · intro msg st node rest hm hsel hfmt hexp
    simp [dispatch, runCommand, hm, hsel, hfmt, hexp]
  · intro msg st node rest f hm hsel hfmt hne hexp
    have hft : strTruthy (some f) = true := by simp [strTruthy, hne]
    refine ⟨?_, ?_, ?_⟩
    · rintro (h | h) <;>
        simp [dispatch, runCommand, hm, hsel, hft, hexp, hfmt, h]
    · rintro (h | h) <;>
        simp [dispatch, runCommand, hm, hsel, hft, hexp, hfmt, h]
    · intro h
      simp only [List.mem_cons, List.not_mem_nil, or_false, not_or] at h
      obtain ⟨h1, h2, h3, h4⟩ := h
      simp [dispatch, runCommand, hm, hsel, hft, hexp, hfmt, h1, h2, h3, h4]
  · intro s hs
    simp [jsOrNum, hs]

/-- A state with one default rectangle selected. -/
def rectSel : FigmaState := { selection := [newRectangle "n0"] }

/-- A state with a non-exportable node selected. -/
def docSel : FigmaState :=
  { selection := [{ id := "d", type := "DOCUMENT", name := "Doc" }] }

/-- Witness for C3 at concrete inputs: empty selection fails without
touching the state; a `DOCUMENT` node fails naming its type; lowercase
`"png"` is normalized to `PNG` with the default scale-1 constraint; an
unknown format fails. -/
theorem export_selection_semantics_witness :
    ((dispatch { id := "e1", method := "export-selection" } {}).1 = {} ∧
      (dispatch { id := "e1", method := "export-selection" } {}).2 =
        { id := "e1"
          error := some { message := "Please select a node to export." } }) ∧
    ((dispatch { id := "e2", method := "export-selection", format := some "PNG" }
        docSel).1 = docSel ∧
      (dispatch { id := "e2", method := "export-selection", format := some "PNG" }
        docSel).2 =
        { id := "e2"
          error := some
            { message := "Node type " ++ "DOCUMENT" ++ " is not exportable." } }) ∧
    ((dispatch { id := "e3", method := "export-selection", format := some "png" }
        rectSel).1.callLog =
      [.exportAsync "n0"
        { format := "PNG", constraint := some { type := "SCALE", value := 1 } }] ∧
      (dispatch { id := "e3", method := "export-selection", format := some "png" }
        rectSel).2 =
        { id := "e3", result := some (.exported "" "png" 1) }) ∧
    (dispatch { id := "e4", method := "export-selection", format := some "webp" }
        rectSel).2 =
      { id := "e4"
        error := some { message := "Unsupported export format: " ++ "webp" } } := by
  obtain ⟨p1, p2, p3, _, _⟩ := export_selection_semantics
  refine ⟨p1 _ _ rfl rfl, p2 _ docSel _ [] rfl rfl (by decide) (by decide), ?_, ?_⟩
  · exact (p3 _ rectSel _ [] "png" rfl rfl rfl (by decide) (by decide)).1
      (Or.inl (by decide))
  · exact ((p3 _ rectSel _ [] "webp" rfl rfl rfl (by decide) (by decide)).2.2
      (by decide)).2

/-- C9: a supplied coordinate equal to `0` is treated as absent by
`create-rectangle` and `create-text` — the created node's `x`
(respectively `y`) becomes the viewport-center coordinate instead of `0`,
because `params.x || figma.viewport.center.x` sees `0` as falsy — and
likewise `export-selection` with `scale` equal to `0` exports with scale
constraint `1`, not `0`. -/
theorem zero_params_treated_as_absent :
    (∀ (msg : CommandMessage) (st : FigmaState),
        msg.method = "create-rectangle" → msg.x = some 0 →
        ∃ r, (dispatch msg st).1.selection = [r] ∧
          r.x = some st.viewport.centerX) ∧
    (∀ (msg : CommandMessage) (st : FigmaState),
        msg.method = "create-rectangle" → msg.y = some 0 →
        ∃ r, (dispatch msg st).1.selection = [r] ∧
          r.y = some st.viewport.centerY) ∧
    (∀ (msg : CommandMessage) (st : FigmaState),
        msg.method = "create-text" → msg.x = some 0 →
        ∃ t, (dispatch msg st).1.selection = [t] ∧
          t.x = some st.viewport.centerX) ∧
    (∀ (msg : CommandMessage) (st : FigmaState),
        msg.method = "create-text" → msg.y = some 0 →
        ∃ t, (dispatch msg st).1.selection = [t] ∧
          t.y = some st.viewport.centerY) ∧
    (∀ (msg : CommandMessage) (st : FigmaState) (node : Node) (rest : List Node),
        msg.method = "export-selection" → st.selection = node :: rest →
        msg.format = some "PNG" → isExportable node = true →
        msg.scale = some 0 →
        (dispatch msg st).1.callLog =
          st.callLog ++ [.exportAsync node.id
            { format := "PNG"
              constraint := some { type := "SCALE", value := 1 } }]) := by
  refine ⟨?_, ?_, ?_, ?_, ?_⟩
  · intro msg st hm hx
    refine ⟨{ newRectangle (freshNodeId st) with
        x := some (jsOrNum msg.x st.viewport.centerX)
        y := some (jsOrNum msg.y st.viewport.centerY) }, ?_, ?_⟩
    · simp [dispatch, runCommand, hm]
    · simp [hx, jsOrNum]
  · intro msg st hm hy
    refine ⟨{ newRectangle (freshNodeId st) with
        x := some (jsOrNum msg.x st.viewport.centerX)
        y := some (jsOrNum msg.y st.viewport.centerY) }, ?_, ?_⟩
    · simp [dispatch, runCommand, hm]
    · simp [hy, jsOrNum]
  · intro msg st hm hx
    refine ⟨{ newText (freshNodeId st) with
        x := some (jsOrNum msg.x st.viewport.centerX)
        y := some (jsOrNum msg.y st.viewport.centerY)
        characters := some (jsOrStr msg.text "Hello World") }, ?_, ?_⟩
    · simp [dispatch, runCommand, hm]
    · simp [hx, jsOrNum]
  · intro msg st hm hy
    refine ⟨{ newText (freshNodeId st) with
        x := some (jsOrNum msg.x st.viewport.centerX)
        y := some (jsOrNum msg.y st.viewport.centerY)
        characters := some (jsOrStr msg.text "Hello World") }, ?_, ?_⟩
    · simp [dispatch, runCommand, hm]
    · simp [hy, jsOrNum]
  · intro msg st node rest hm hsel hfmt hexp hscale
    simp [dispatch, runCommand, hm, hsel, hfmt, hexp, hscale, strTruthy,
      strToUpper, jsOrNum]

/-- A state whose viewport center is away from the origin. -/
def vpSt : FigmaState := { viewport := { zoom := 1, centerX := 50, centerY := 60 } }

/-- Witness for C9: `x: 0` / `y: 0` land the created node at the viewport
center, and `scale: 0` exports with constraint value 1. -/
theorem zero_params_treated_as_absent_witness :
    (∃ r, (dispatch { id := "z1", method := "create-rectangle", x := some 0 }
        vpSt).1.selection = [r] ∧ r.x = some vpSt.viewport.centerX) ∧
    (∃ r, (dispatch { id := "z2", method := "create-rectangle", y := some 0 }
        vpSt).1.selection = [r] ∧ r.y = some vpSt.viewport.centerY) ∧
    (∃ t, (dispatch { id := "z3", method := "create-text", x := some 0 }
        vpSt).1.selection = [t] ∧ t.x = some vpSt.viewport.centerX) ∧
    (∃ t, (dispatch { id := "z4", method := "create-text", y := some 0 }
        vpSt).1.selection = [t] ∧ t.y = some vpSt.viewport.centerY) ∧
    (dispatch { id := "z5", method := "export-selection",
                format := some "PNG", scale := some 0 } rectSel).1.callLog =
      rectSel.callLog ++ [.exportAsync "n0"
        { format := "PNG", constraint := some { type := "SCALE", value := 1 } }] := by
  obtain ⟨p1, p2, p3, p4, p5⟩ := zero_params_treated_as_absent
  exact ⟨p1 _ vpSt rfl rfl, p2 _ vpSt rfl rfl, p3 _ vpSt rfl rfl,
    p4 _ vpSt rfl rfl, p5 _ rectSel _ [] rfl rfl rfl (by decide) rfl⟩

/-- `updateFirst` preserves the list length. -/
theorem updateFirst_length (p : α → Bool) (f : α → α) (l : List α) :
    (updateFirst p f l).length = l.length := by
  induction l with
  | nil => rfl
  | cons a as ih => cases hp : p a <;> simp [updateFirst, hp, ih]

/-- `updateFirst` leaves any map invariant that the rewrite preserves on
matching elements. -/
theorem updateFirst_map (p : α → Bool) (f : α → α) (g : α → β) (l : List α)
    (h : ∀ a, p a = true → g (f a) = g a) :
    (updateFirst p f l).map g = l.map g := by
  induction l with
  | nil => rfl
  | cons a as ih =>
      cases hp : p a
      · simp [updateFirst, hp, ih]
      · simp [updateFirst, hp, h a hp]

/-- `updateFirst` skips over a block with no matching element. -/
theorem updateFirst_append_of_none (p : α → Bool) (f : α → α) (l1 l2 : List α)
    (h : ∀ x ∈ l1, p x = false) :
    updateFirst p f (l1 ++ l2) = l1 ++ updateFirst p f l2 := by
  induction l1 with
  | nil => rfl
  | cons a as ih =>
      simp only [List.cons_append, updateFirst, h a (List.mem_cons_self a as),
        Bool.false_eq_true, if_false, List.cons.injEq, true_and]
      exact ih (fun x hx => h x (List.mem_cons_of_mem a hx))

/-- `find?` skips over a block in which it finds nothing. -/
theorem find?_append_none (p : α → Bool) (l1 l2 : List α)
    (h : l1.find? p = none) : (l1 ++ l2).find? p = l2.find? p := by
  induction l1 with
  | nil => rfl
  | cons a as ih =>
      cases hp : p a
      · simp only [List.cons_append, List.find?_cons, hp] at h ⊢
        exact ih h
      · simp [List.find?_cons, hp] at h

/-- C10: `create-color-style` with the name of an existing local paint
style does not create a second style — it overwrites that style's paint
list with the single solid paint of the given color and returns that
style's id (the style list keeps its length and names); a new style is
appended only when no local paint style bears the name; hence invoking it
twice with the same name leaves exactly one style with that name. -/
theorem create_color_style_upsert :
    (∀ (styles : List PaintStyle) (fid name : String) (color : RGB)
        (st0 : PaintStyle),
        styles.find? (fun s => s.name = name) = some st0 →
        (createOrUpdateColorStyle styles fid name color).2.id = st0.id ∧
        (createOrUpdateColorStyle styles fid name color).2.paints =
          [{ type := "SOLID", color := some color }] ∧
        (createOrUpdateColorStyle styles fid name color).1.length = styles.length ∧
        (createOrUpdateColorStyle styles fid name color).1.map (fun s => s.name) =
          styles.map (fun s => s.name)) ∧
    (∀ (styles : List PaintStyle) (fid name : String) (color : RGB),
        styles.find? (fun s => s.name = name) = none →
        (createOrUpdateColorStyle styles fid name color).1 =
          styles ++ [{ id := fid, name := name
                       paints := [{ type := "SOLID", color := some color }] }] ∧
        (createOrUpdateColorStyle styles fid name color).2.id = fid) ∧
    (∀ (styles : List PaintStyle) (f1 f2 name : String) (c1 c2 : RGB),
        styles.filter (fun s => s.name = name) = [] →
        ((createOrUpdateColorStyle
            (createOrUpdateColorStyle styles f1 name c1).1 f2 name c2).1.filter
          (fun s => s.name = name)).length = 1) := by
  refine ⟨?_, ?_, ?_⟩
  · intro styles fid name color st0 hfind
    unfold createOrUpdateColorStyle
    rw [hfind]
    refine ⟨rfl, rfl, updateFirst_length _ _ _, updateFirst_map _ _ _ _ ?_⟩
    intro a _
    rfl
  · intro styles fid name color hfind
    unfold createOrUpdateColorStyle
    rw [hfind]
    exact ⟨rfl, rfl⟩
  · intro styles f1 f2 name c1 c2 hfilter
    have hall : ∀ x ∈ styles, ¬(x.name = name) := by
      intro x hx
      simpa using List.filter_eq_nil_iff.mp hfilter x hx
    have hallb : ∀ x ∈ styles,
        (fun s : PaintStyle => decide (s.name = name)) x = false := by
      intro x hx
      simpa using hall x hx
    have hfindnone : styles.find? (fun s => s.name = name) = none :=
      List.find?_eq_none.mpr (fun x hx => by simpa using hall x hx)
    have e1 : (createOrUpdateColorStyle styles f1 name c1).1 =
        styles ++ [{ id := f1, name := name, paints := [{ type := "SOLID", color := some c1 }] }] := by
      unfold createOrUpdateColorStyle
      rw [hfindnone]
    rw [e1]
    have e2 : (styles ++ [({ id := f1, name := name, paints := [{ type := "SOLID", color := some c1 }] } : PaintStyle)]).find? (fun s => s.name = name) = some { id := f1, name := name, paints := [{ type := "SOLID", color := some c1 }] } := by
      rw [find?_append_none _ _ _ hfindnone]
      simp [List.find?_cons]
    unfold createOrUpdateColorStyle
    rw [e2]
    rw [updateFirst_append_of_none _ _ _ _ hallb]
    simp [updateFirst, List.filter_append, hfilter]

/-- Witness for C10 at concrete styles: updating style `A` keeps its id
and overwrites its paints in place; creating style `B` on an empty list
appends it; creating `B` twice leaves exactly one style named `B`. -/
theorem create_color_style_upsert_witness :
    ((createOrUpdateColorStyle [styleA] "style:9" "A" ⟨0, 0, 1⟩).2.id = styleA.id ∧
      (createOrUpdateColorStyle [styleA] "style:9" "A" ⟨0, 0, 1⟩).2.paints =
        [{ type := "SOLID", color := some ⟨0, 0, 1⟩ }] ∧
      (createOrUpdateColorStyle [styleA] "style:9" "A" ⟨0, 0, 1⟩).1.length =
        [styleA].length ∧
      (createOrUpdateColorStyle [styleA] "style:9" "A" ⟨0, 0, 1⟩).1.map
          (fun s => s.name) =
        [styleA].map (fun s => s.name)) ∧
    ((createOrUpdateColorStyle [] "style:0" "B" ⟨1, 1, 0⟩).1 =
      [] ++ [{ id := "style:0", name := "B", paints := [{ type := "SOLID", color := some ⟨1, 1, 0⟩ }] }] ∧
      (createOrUpdateColorStyle [] "style:0" "B" ⟨1, 1, 0⟩).2.id = "style:0") ∧
    ((createOrUpdateColorStyle
        (createOrUpdateColorStyle [] "style:0" "B" ⟨1, 1, 0⟩).1
        "style:1" "B" ⟨0, 1, 1⟩).1.filter (fun s => s.name = "B")).length = 1 := by
  obtain ⟨p1, p2, p3⟩ := create_color_style_upsert
  exact ⟨p1 [styleA] "style:9" "A" ⟨0, 0, 1⟩ styleA (by decide),
    p2 [] "style:0" "B" ⟨1, 1, 0⟩ rfl,
    p3 [] "style:0" "style:1" "B" ⟨1, 1, 0⟩ ⟨0, 1, 1⟩ rfl⟩

/-- A dispatch-table command name with every hyphen replaced by a dot:
the form under which the `list-functions` catalog lists commands
(`"get-selection"` ↦ `"get.selection"`). -/
def dottedName (m : String) : String :=
  ⟨m.data.map (fun c => if c = '-' then '.' else c)⟩

/-- C5 counterexample: `"get-selection"` is a supported command of the
dispatch table other than `list-functions`, yet no entry of the static
catalog carries that name — the catalog names are dot-separated
(`"get.selection"`), not the dispatch table's hyphenated method names, so
the catalog does not contain an entry giving that command's name as
dispatched. -/
theorem catalog_lacks_hyphenated_names :
    "get-selection" ∈ dispatchMethods ∧
      "get-selection" ≠ "list-functions" ∧
      ∀ e ∈ listFunctionsCatalog, e.name ≠ "get-selection" := by decide

/-- C5 as amended: for every supported command in the dispatch table other
than `list-functions` itself, the static catalog contains an entry whose
`name` is that command's name with hyphens replaced by dots, together
with a non-empty human-readable description and a parameter schema in
which every parameter carries a type and a description, plus a
required-field list drawn from the declared parameters. -/
theorem catalog_covers_commands_dotted :
    ∀ m ∈ dispatchMethods, m ≠ "list-functions" →
      ∃ e ∈ listFunctionsCatalog,
        e.name = dottedName m ∧
        e.description ≠ "" ∧
        e.inputSchema.type = "object" ∧
        (∀ pr ∈ e.inputSchema.properties,
          pr.2.type ≠ "" ∧ pr.2.description.isSome) ∧
        (∀ r ∈ e.inputSchema.required,
          r ∈ e.inputSchema.properties.map Prod.fst) := by decide

/-- Witness for the amended C5 at the concrete command
`"export-selection"`. -/
theorem catalog_covers_commands_dotted_witness :
    ∃ e ∈ listFunctionsCatalog,
      e.name = dottedName "export-selection" ∧
      e.description ≠ "" ∧
      e.inputSchema.type = "object" ∧
      (∀ pr ∈ e.inputSchema.properties,
        pr.2.type ≠ "" ∧ pr.2.description.isSome) ∧
      (∀ r ∈ e.inputSchema.required,
        r ∈ e.inputSchema.properties.map Prod.fst) :=
  catalog_covers_commands_dotted "export-selection" (by decide) (by decide)
